import Mathlib

/-!
Verification of the askaiquestions-2api gateway (src/index.ts) against its
natural-language specification.

The source is a single Bun HTTP gateway.  We shallowly embed the parts the
claims are about:

* `createPseudoStream` (src/index.ts lines 196-246): the pseudo-stream
  emitter.  JS strings are sequences of UTF-16 code units; we model the
  upstream text as `List Char`.  The emission loop
  `for (let i = 0; i < fullText.length; i += chunkSize)` is embedded as a
  fuel-indexed offset loop `streamLoop` returning `none` when the fuel is
  exhausted before the loop condition becomes false; `chunkSize = 0` then
  yields `none` for every fuel, which is the shallow rendering of the
  infinite loop the JS code runs into.
* the error-envelope helper `errorResponse` (lines 251-263) and the mapping
  from upstream failures to responses in `handleChatCompletions`
  (lines 151-190);
* the dispatcher `fetch` / `handleApiProxy` / `handleChatCompletions`
  (lines 25-191) as a pure function from an abstracted request to a
  dispatch outcome, where reaching the upstream `fetch` call is made
  explicit as a `Dispatch.upstreamCall` outcome.
-/

/-- One emitted stream chunk, as built in `createPseudoStream`
(src/index.ts lines 208-214, 222-228, 234-239).  The `object` field is the
constant `"chat.completion.chunk"` and `created` is a wall-clock timestamp;
neither is relevant to any claim, so they are omitted.  `deltaContent`
models `choices[0].delta`: `some s` for `delta: \x7b content: s \x7d`,
`none` for the empty delta `\x7b\x7d`. -/
structure StreamChunk where
  id : String
  model : String
  deltaContent : Option (List Char)
  finishReason : Option String
deriving DecidableEq

/-- One server-sent event enqueued by `createPseudoStream`: either a
`data: <json chunk>` event or the literal `data: [DONE]` terminator
(src/index.ts line 230). -/
inductive SSEEvent where
  | data (chunk : StreamChunk)
  | done
deriving DecidableEq

/-- The content-bearing chunk emitted for one slice of the text
(src/index.ts lines 208-214): `finish_reason: null`. -/
def contentChunkOf (reqId mdl : String) (s : List Char) : StreamChunk :=
  { id := reqId, model := mdl, deltaContent := some s, finishReason := none }

/-- The terminal chunk (src/index.ts lines 222-228): empty delta,
`finish_reason: "stop"`. -/
def stopChunk (reqId mdl : String) : StreamChunk :=
  { id := reqId, model := mdl, deltaContent := none, finishReason := some "stop" }

/-- The best-effort error chunk enqueued in the `catch` block
(src/index.ts lines 234-240). -/
def errorChunk (reqId mdl : String) : StreamChunk :=
  { id := reqId, model := mdl, deltaContent := some "\n[Stream Error]".toList,
    finishReason := some "stop" }

/-- The slicing loop of `createPseudoStream` (src/index.ts lines 206-219):
`for (let i = 0; i < fullText.length; i += chunkSize)` emitting
`fullText.substring(i, i + chunkSize)` — i.e. `(text.drop i).take chunkSize`
— as a content chunk each iteration.  The loop is fuel-indexed: `none`
means the fuel ran out while the loop condition `i < fullText.length` was
still true.  For `chunkSize = 0` the offset never advances, so the result
is `none` for every fuel: the JS loop never terminates. -/
def streamLoop (text : List Char) (reqId mdl : String) (chunkSize : Nat) :
    Nat → Nat → Option (List SSEEvent)
  | 0, i => if i < text.length then none else some []
  | fuel + 1, i =>
    if i < text.length then
      (streamLoop text reqId mdl chunkSize fuel (i + chunkSize)).map
        (fun rest =>
          SSEEvent.data (contentChunkOf reqId mdl ((text.drop i).take chunkSize)) :: rest)
    else some []

/-- The full non-fault emission of `createPseudoStream`
(src/index.ts lines 196-231): the slicing loop, then the terminal stop
chunk, then the literal `[DONE]` event.  Fuel `text.length` suffices
whenever `chunkSize ≥ 1`; `none` models the loop never finishing. -/
def createPseudoStream (text : List Char) (reqId mdl : String) (chunkSize : Nat) :
    Option (List SSEEvent) :=
  (streamLoop text reqId mdl chunkSize text.length 0).map
    (fun body => body ++ [SSEEvent.data (stopChunk reqId mdl), SSEEvent.done])

/-- The `catch` path of `createPseudoStream` (src/index.ts lines 232-243):
whatever events were enqueued before the internal fault are followed by
exactly one error chunk, and then the controller is closed (the `finally`
block) — no further event is enqueued. -/
def pseudoStreamFaulted (emittedBeforeFault : List SSEEvent) (reqId mdl : String) :
    List SSEEvent :=
  emittedBeforeFault ++ [SSEEvent.data (errorChunk reqId mdl)]

/-- The `delta.content` fields of the content-bearing chunks of an event
sequence, in emission order.  Chunks with an empty delta (the stop chunk)
and the `[DONE]` event carry no content. -/
def contentParts (evs : List SSEEvent) : List (List Char) :=
  evs.filterMap (fun e =>
    match e with
    | SSEEvent.data c => c.deltaContent
    | SSEEvent.done => none)

/-- Whether an event is a chunk with `finish_reason: "stop"`. -/
def isStopChunk (e : SSEEvent) : Bool :=
  match e with
  | SSEEvent.data c => c.finishReason == some "stop"
  | SSEEvent.done => false

/-- The runtime configuration value `CONFIG.PSEUDO_STREAM_CHUNK_SIZE`
(src/index.ts line 17): `parseInt(process.env.PSEUDO_STREAM_CHUNK_SIZE || "2")`,
modelled as the parsed integer when the environment variable is set and
parses, and the default `2` otherwise.  There is no validation anywhere in
the file: any integer, including `0` and negatives, is accepted and the
service starts. -/
def CONFIG_PSEUDO_STREAM_CHUNK_SIZE (envValue : Option Int) : Int :=
  envValue.getD 2

theorem contentParts_append (l₁ l₂ : List SSEEvent) :
    contentParts (l₁ ++ l₂) = contentParts l₁ ++ contentParts l₂ :=
  List.filterMap_append l₁ l₂ _

/-- Every event produced by the slicing loop is a content chunk, the
concatenation of the emitted slices is exactly the not-yet-emitted suffix
of the text, and each slice is emitted exactly once. -/
theorem streamLoop_sound (text : List Char) (reqId mdl : String) (c : Nat) :
    ∀ fuel i evs, streamLoop text reqId mdl c fuel i = some evs →
      (contentParts evs).flatten = text.drop i ∧
      (∀ e ∈ evs, ∃ s, e = SSEEvent.data (contentChunkOf reqId mdl s)) := by
  intro fuel
  induction fuel with
  | zero =>
    intro i evs h
    by_cases hi : i < text.length
    · simp [streamLoop, hi] at h
    · simp [streamLoop, hi] at h
      subst h
      refine ⟨?_, by simp⟩
      simp [contentParts, List.drop_eq_nil_of_le (Nat.le_of_not_lt hi)]
  | succ fuel ih =>
    intro i evs h
    by_cases hi : i < text.length
    · simp only [streamLoop, if_pos hi] at h
      cases hrest : streamLoop text reqId mdl c fuel (i + c) with
      | none => rw [hrest] at h; simp at h
      | some rest =>
        rw [hrest] at h
        simp at h
        obtain ⟨hjoin, hall⟩ := ih (i + c) rest hrest
        subst h
        constructor
        · simp only [contentParts, List.filterMap_cons, contentChunkOf]
          show (text.drop i).take c ++ (contentParts rest).flatten = text.drop i
          rw [hjoin, ← List.drop_drop]
          exact List.take_append_drop c (text.drop i)
        · intro e he
          rcases List.mem_cons.mp he with h1 | h2
          · exact ⟨(text.drop i).take c, h1⟩
          · exact hall e h2
    · simp only [streamLoop, if_neg hi, Option.some_inj] at h
      subst h
      refine ⟨?_, by simp⟩
      simp [contentParts, List.drop_eq_nil_of_le (Nat.le_of_not_lt hi)]

/-- Chunk count of the slicing loop: when `chunkSize ≥ 1`, the loop emits
`⌈(len − i) / c⌉` slices, written `(len − i + c − 1) / c` in `Nat`. -/
theorem streamLoop_count (text : List Char) (reqId mdl : String) (c : Nat)
    (hc : 1 ≤ c) :
    ∀ fuel i evs, streamLoop text reqId mdl c fuel i = some evs →
      evs.length = (text.length - i + c - 1) / c := by
  intro fuel
  induction fuel with
  | zero =>
    intro i evs h
    by_cases hi : i < text.length
    · simp [streamLoop, hi] at h
    · simp [streamLoop, hi] at h
      subst h
      have h0 : text.length - i = 0 := by omega
      rw [h0]
      simp [Nat.div_eq_of_lt (by omega : c - 1 < c)]
  | succ fuel ih =>
    intro i evs h
    by_cases hi : i < text.length
    · simp only [streamLoop, if_pos hi] at h
      cases hrest : streamLoop text reqId mdl c fuel (i + c) with
      | none => rw [hrest] at h; simp at h
      | some rest =>
        rw [hrest] at h
        simp at h
        subst h
        have hlen := ih (i + c) rest hrest
        simp only [List.length_cons, hlen]
        have hn : 1 ≤ text.length - i := by omega
        have hsub : text.length - (i + c) = text.length - i - c := by omega
        rw [hsub]
        set n := text.length - i with hdefn
        have h1 : n + c - 1 = (n - 1) + c := by omega
        rw [h1, Nat.add_div_right _ (by omega : 0 < c)]
        by_cases hnc : c ≤ n
        · have h2 : n - c + c - 1 = n - 1 := by omega
          rw [h2]
        · have h2 : n - c = 0 := by omega
          rw [h2]
          rw [Nat.div_eq_of_lt (by omega : 0 + c - 1 < c),
            Nat.div_eq_of_lt (by omega : n - 1 < c)]
    · simp only [streamLoop, if_neg hi, Option.some_inj] at h
      subst h
      have h0 : text.length - i = 0 := by omega
      simp [h0, Nat.div_eq_of_lt (by omega : c - 1 < c)]

/-- With `chunkSize ≥ 1` the loop terminates: fuel `len − i` (in
particular fuel `len` from offset `0`) always suffices. -/
theorem streamLoop_total (text : List Char) (reqId mdl : String) (c : Nat)
    (hc : 1 ≤ c) :
    ∀ fuel i, text.length ≤ i + fuel →
      ∃ evs, streamLoop text reqId mdl c fuel i = some evs := by
  intro fuel
  induction fuel with
  | zero =>
    intro i h
    refine ⟨[], ?_⟩
    simp [streamLoop, Nat.not_lt.mpr (by omega : text.length ≤ i)]
  | succ fuel ih =>
    intro i h
    by_cases hi : i < text.length
    · obtain ⟨rest, hrest⟩ := ih (i + c) (by omega)
      refine ⟨SSEEvent.data (contentChunkOf reqId mdl ((text.drop i).take c)) :: rest, ?_⟩
      simp [streamLoop, if_pos hi, hrest]
    · exact ⟨[], by simp [streamLoop, if_neg hi]⟩

/-- A list of events that are all content chunks contributes one content
part per event. -/
theorem contentParts_length_of_all (evs : List SSEEvent) (reqId mdl : String)
    (h : ∀ e ∈ evs, ∃ s, e = SSEEvent.data (contentChunkOf reqId mdl s)) :
    (contentParts evs).length = evs.length := by
  induction evs with
  | nil => rfl
  | cons e rest ih =>
    obtain ⟨s, hs⟩ := h e (by simp)
    subst hs
    simp only [contentParts, List.filterMap_cons, contentChunkOf, List.length_cons]
    have := ih (fun e he => h e (by simp [he]))
    simpa [contentParts] using this

/-- C1: for every non-empty upstream text and every chunk size `c ≥ 1`, the
pseudo-stream emitter terminates and the `delta.content` fields of its
content-bearing chunks, concatenated in emission order, reproduce the text
exactly, and their number is `⌈len/c⌉ = (len + c − 1) / c`. -/
theorem claim_c1 (text : List Char) (reqId mdl : String) (c : Nat)
    (hc : 1 ≤ c) (_ht : text ≠ []) :
    ∃ evs, createPseudoStream text reqId mdl c = some evs ∧
      (contentParts evs).flatten = text ∧
      (contentParts evs).length = (text.length + c - 1) / c := by
  obtain ⟨body, hbody⟩ := streamLoop_total text reqId mdl c hc text.length 0 (by omega)
  obtain ⟨hjoin, hall⟩ := streamLoop_sound text reqId mdl c text.length 0 body hbody
  have hcount := streamLoop_count text reqId mdl c hc text.length 0 body hbody
  refine ⟨body ++ [SSEEvent.data (stopChunk reqId mdl), SSEEvent.done], ?_, ?_, ?_⟩
  · simp [createPseudoStream, hbody]
  · rw [contentParts_append]
    have h2 : contentParts [SSEEvent.data (stopChunk reqId mdl), SSEEvent.done] = [] := by
      simp [contentParts, stopChunk]
    rw [h2, List.append_nil]
    simpa using hjoin
  · rw [contentParts_append]
    have h2 : contentParts [SSEEvent.data (stopChunk reqId mdl), SSEEvent.done] = [] := by
      simp [contentParts, stopChunk]
    rw [h2, List.append_nil, contentParts_length_of_all body reqId mdl hall, hcount]
    simp

/-- Witness for C1: the spec scenario — text `"abcd"`, chunk size 2 —
yields content chunks whose concatenation is `"abcd"` and whose count is
`⌈4/2⌉ = 2`; concretely the chunks are `"ab"` then `"cd"`. -/
theorem claim_c1_witness :
    (1 ≤ 2 ∧ "abcd".toList ≠ [] ∧
      ∃ evs, createPseudoStream "abcd".toList "req-1" "m-1" 2 = some evs ∧
        (contentParts evs).flatten = "abcd".toList ∧
        (contentParts evs).length = ("abcd".toList.length + 2 - 1) / 2) ∧
    contentParts ((createPseudoStream "abcd".toList "req-1" "m-1" 2).getD []) =
      ["ab".toList, "cd".toList] :=
  ⟨⟨by decide, by decide, claim_c1 "abcd".toList "req-1" "m-1" 2 (by decide) (by decide)⟩,
    by decide⟩

/-- C2: for every text (the empty text included) and chunk size `c ≥ 1`,
the non-fault emission ends with exactly one empty-delta chunk with
`finish_reason: "stop"` followed by exactly one `[DONE]` event with nothing
after it, every earlier event being a content chunk with
`finish_reason: null`. -/
theorem claim_c2 (text : List Char) (reqId mdl : String) (c : Nat) (hc : 1 ≤ c) :
    ∃ evs body, createPseudoStream text reqId mdl c = some evs ∧
      evs = body ++ [SSEEvent.data (stopChunk reqId mdl), SSEEvent.done] ∧
      (∀ e ∈ body, ∃ s, e = SSEEvent.data (contentChunkOf reqId mdl s)) ∧
      evs.count SSEEvent.done = 1 ∧
      evs.countP isStopChunk = 1 := by
  obtain ⟨body, hbody⟩ := streamLoop_total text reqId mdl c hc text.length 0 (by omega)
  obtain ⟨-, hall⟩ := streamLoop_sound text reqId mdl c text.length 0 body hbody
  have h0 : body.count SSEEvent.done = 0 := by
    rw [List.count_eq_zero]
    intro hmem
    obtain ⟨s, hs⟩ := hall _ hmem
    exact SSEEvent.noConfusion hs
  have h1 : body.countP isStopChunk = 0 := by
    rw [List.countP_eq_zero]
    intro e he
    obtain ⟨s, hs⟩ := hall e he
    subst hs
    simp [isStopChunk, contentChunkOf]
  refine ⟨_, body, by simp [createPseudoStream, hbody], rfl, hall, ?_, ?_⟩
  · simp [List.count_append, h0, List.count_cons]
  · simp [List.countP_append, h1, List.countP_cons, isStopChunk, stopChunk]

/-- Witness for C2: at the empty text the emission is exactly the stop
chunk followed by `[DONE]`. -/
theorem claim_c2_witness :
    1 ≤ 2 ∧
    ∃ evs body, createPseudoStream [] "req-2" "m-2" 2 = some evs ∧
      evs = body ++ [SSEEvent.data (stopChunk "req-2" "m-2"), SSEEvent.done] ∧
      (∀ e ∈ body, ∃ s, e = SSEEvent.data (contentChunkOf "req-2" "m-2" s)) ∧
      evs.count SSEEvent.done = 1 ∧
      evs.countP isStopChunk = 1 :=
  ⟨by decide, claim_c2 [] "req-2" "m-2" 2 (by decide)⟩

/-- Counterexample to C3: when a fault occurs before any event was emitted,
the client-visible sequence of the `catch` path is just the one error
chunk; the literal `[DONE]` termination marker is never emitted, contrary
to the claim. -/
theorem claim_c3_counterexample :
    SSEEvent.done ∉ pseudoStreamFaulted [] "req-3" "m-3" := by decide

/-- C3 as amended: on an internal fault mid-emission the emitter appends
exactly one inline error delta chunk (with `finish_reason: "stop"`) as the
final event and then closes the stream; no `[DONE]` marker follows (the
stream is terminated by closing the controller, not by the marker). -/
theorem claim_c3_amended (emitted : List SSEEvent) (reqId mdl : String)
    (h : SSEEvent.done ∉ emitted) :
    (pseudoStreamFaulted emitted reqId mdl).getLast? =
      some (SSEEvent.data (errorChunk reqId mdl)) ∧
    SSEEvent.data (errorChunk reqId mdl) ∈ pseudoStreamFaulted emitted reqId mdl ∧
    SSEEvent.done ∉ pseudoStreamFaulted emitted reqId mdl := by
  refine ⟨?_, ?_, ?_⟩
  · simp [pseudoStreamFaulted]
  · simp [pseudoStreamFaulted]
  · simp [pseudoStreamFaulted, h]

/-- Witness for the amended C3 at a fault before the first event. -/
theorem claim_c3_witness :
    SSEEvent.done ∉ ([] : List SSEEvent) ∧
    ((pseudoStreamFaulted [] "req-3w" "m-3w").getLast? =
        some (SSEEvent.data (errorChunk "req-3w" "m-3w")) ∧
      SSEEvent.data (errorChunk "req-3w" "m-3w") ∈
        pseudoStreamFaulted [] "req-3w" "m-3w" ∧
      SSEEvent.done ∉ pseudoStreamFaulted [] "req-3w" "m-3w") :=
  ⟨by decide, claim_c3_amended [] "req-3w" "m-3w" (by decide)⟩

/-- C4 (code bug): the configuration accepts a chunk size of `0` without
any startup rejection (`parseInt` with no validation, src/index.ts
line 17), and with that configuration the emitter loop of
`createPseudoStream` never terminates for a non-empty text — no amount of
fuel makes the loop condition `i < fullText.length` false, since the
offset never advances. -/
theorem claim_c4 :
    CONFIG_PSEUDO_STREAM_CHUNK_SIZE (some 0) = 0 ∧
    ∀ fuel : Nat, streamLoop "abcd".toList "req-4" "m-4" 0 fuel 0 = none := by
  refine ⟨rfl, ?_⟩
  intro fuel
  induction fuel with
  | zero => decide
  | succ fuel ih =>
    have h4 : 0 < ("abcd".toList).length := by decide
    simp only [streamLoop, if_pos h4, Nat.add_zero, ih]
    rfl

/-- The error envelope built by the helper `errorResponse`
(src/index.ts lines 251-263): `\x7b error: \x7b message, type: "api_error",
code \x7d \x7d`. -/
structure ErrorEnvelope where
  message : String
  type : String
  code : String
deriving DecidableEq

/-- The helper `errorResponse(message, status, code)`
(src/index.ts lines 251-263), returning the HTTP status together with the
JSON error envelope. -/
def errorResponse (message : String) (status : Nat) (code : String) :
    Nat × ErrorEnvelope :=
  (status, { message := message, type := "api_error", code := code })

/-- The three failure kinds of the upstream call inside
`handleChatCompletions` (src/index.ts lines 145-161): the `fetch` throwing
(transport failure, carrying the thrown error message), a non-success HTTP
status (carrying status and body text), and a success status whose JSON
lacks a string `summary` field. -/
inductive UpstreamFailure where
  | unreachable (errMessage : String)
  | statusError (status : Nat) (body : String)
  | contractViolation
deriving DecidableEq

/-- How `handleChatCompletions` maps each upstream failure to a response
(src/index.ts lines 151-155 and 187-190): a non-ok status is answered
inline with status 502 and code `upstream_<status>`; a thrown transport
error and the thrown contract-violation error (line 161) both land in the
`catch` block, which answers 502 with code `api_error` and message
`Processing failed: <error message>`. -/
def upstreamFailureResponse (f : UpstreamFailure) : Nat × ErrorEnvelope :=
  match f with
  | UpstreamFailure.statusError st body =>
      errorResponse ("Upstream error: " ++ body) 502 ("upstream_" ++ toString st)
  | UpstreamFailure.unreachable msg =>
      errorResponse ("Processing failed: " ++ msg) 502 "api_error"
  | UpstreamFailure.contractViolation =>
      errorResponse
        ("Processing failed: Upstream response missing \x27summary\x27 field.")
        502 "api_error"

/-- One chat message of the request body. -/
structure ChatMessage where
  role : String
  content : String
deriving DecidableEq

/-- The parse outcome of the request body in `handleChatCompletions`
(src/index.ts lines 114-119): either `request.json()` throws (malformed
JSON), or it yields an object whose `stream`, `model` and `messages`
fields may each be absent (absent and `null` both modelled as `none`,
matching the `||`-defaulting on lines 121-122 and 128). -/
inductive RequestBody where
  | malformed
  | parsed (stream : Bool) (model : Option String) (messages : Option (List ChatMessage))
deriving DecidableEq

/-- An inbound HTTP request, reduced to the fields the gateway inspects:
path, method, `Authorization` header, and the body parse outcome. -/
structure Request where
  path : String
  method : String
  authHeader : Option String
  body : RequestBody
deriving DecidableEq

/-- The terminal outcome of dispatching one request, up to the point where
the upstream backend would be contacted: `upstreamCall` marks that the
code reaches the `fetch(CONFIG.UPSTREAM_URL, ...)` call on
src/index.ts line 145 with the given messages, stream flag and model;
every other outcome is a response produced without any upstream call. -/
inductive Dispatch where
  | preflight
  | healthOk
  | modelsList
  | errorOut (status : Nat) (envelope : ErrorEnvelope)
  | upstreamCall (messages : List ChatMessage) (stream : Bool) (model : String)
deriving DecidableEq

/-- `CONFIG.DEFAULT_MODEL` (src/index.ts line 15). -/
def DEFAULT_MODEL : String := "askai-default-model"

/-- JS `String.prototype.startsWith(p)` over the code-unit model of JS
strings: `p` is an initial segment of `s`. -/
def jsStartsWith (s p : String) : Bool :=
  p.toList.isPrefixOf s.toList

/-- JS `String.prototype.substring(n)` over the code-unit model: the
code units of `s` from index `n` on. -/
def jsSubstringFrom (s : String) (n : Nat) : List Char :=
  s.toList.drop n

/-- The authentication check of `handleApiProxy` (src/index.ts line 75):
the request is authorized iff the `Authorization` header is present,
starts with `Bearer `, and the rest of the header (`substring(7)`) is
exactly (`!==` is strict string comparison) the configured master key. -/
def validAuth (key : String) (authHeader : Option String) : Bool :=
  match authHeader with
  | none => false
  | some h => jsStartsWith h "Bearer " && jsSubstringFrom h 7 == key.toList

/-- `handleChatCompletions` up to the upstream call
(src/index.ts lines 113-133): malformed JSON is answered 400
`invalid_request_error`; then `messages` is defaulted to `[]` and an empty
list is answered 400 `invalid_request_error`; otherwise control reaches
the upstream `fetch` with the defaulted `stream` and `model` values. -/
def handleChatCompletions (req : Request) : Dispatch :=
  match req.body with
  | RequestBody.malformed =>
      Dispatch.errorOut 400
        { message := "Invalid JSON body", type := "api_error",
          code := "invalid_request_error" }
  | RequestBody.parsed stream mdl messages =>
      let msgs := messages.getD []
      if msgs.length = 0 then
        Dispatch.errorOut 400
          { message := "Missing \x27messages\x27 field", type := "api_error",
            code := "invalid_request_error" }
      else
        Dispatch.upstreamCall msgs stream (mdl.getD DEFAULT_MODEL)

/-- `handleApiProxy` (src/index.ts lines 58-91): OPTIONS short-circuits to
the CORS preflight response; then the bearer check; then exact
path-plus-method routing to the models list or chat completions; anything
else under `/v1/` is answered 405. -/
def handleApiProxy (key : String) (req : Request) : Dispatch :=
  if req.method = "OPTIONS" then
    Dispatch.preflight
  else if validAuth key req.authHeader = false then
    Dispatch.errorOut 401
      { message := "Unauthorized", type := "api_error", code := "invalid_api_key" }
  else if req.path = "/v1/models" ∧ req.method = "GET" then
    Dispatch.modelsList
  else if req.path = "/v1/chat/completions" ∧ req.method = "POST" then
    handleChatCompletions req
  else
    Dispatch.errorOut 405
      { message := "Method " ++ req.method ++ " not allowed for " ++ req.path,
        type := "api_error", code := "method_not_allowed" }

/-- The top-level `fetch` handler (src/index.ts lines 25-52): paths under
`/v1/` go to `handleApiProxy`, the root path answers the health check, and
every other path is answered 404. -/
def serveFetch (key : String) (req : Request) : Dispatch :=
  if jsStartsWith req.path "/v1/" then
    handleApiProxy key req
  else if req.path = "/" then
    Dispatch.healthOk
  else
    Dispatch.errorOut 404
      { message := "Path not found: " ++ req.path, type := "api_error",
        code := "not_found" }

/-- Counterexample to C5: a transport failure and a contract violation are
distinct failure kinds, yet the gateway answers both with the same `code`
value — `handleChatCompletions` maps both through the same `catch` block
to `api_error` (src/index.ts lines 187-190), so the codes are not distinct
per failure kind. -/
theorem claim_c5_counterexample :
    (upstreamFailureResponse (UpstreamFailure.unreachable "fetch failed")).2.code =
      (upstreamFailureResponse UpstreamFailure.contractViolation).2.code ∧
    UpstreamFailure.unreachable "fetch failed" ≠ UpstreamFailure.contractViolation := by
  decide

/-- C5 as amended: every upstream failure kind is surfaced as HTTP 502; a
non-success status is answered with code `upstream_<status>`, but a
transport failure and a contract violation both get the code `api_error`
— the 502 status is uniform, the codes are not pairwise distinct. -/
theorem claim_c5_amended :
    (∀ f, (upstreamFailureResponse f).1 = 502) ∧
    (∀ st body,
      (upstreamFailureResponse (UpstreamFailure.statusError st body)).2.code =
        "upstream_" ++ toString st) ∧
    (∀ msg,
      (upstreamFailureResponse (UpstreamFailure.unreachable msg)).2.code =
        "api_error") ∧
    (upstreamFailureResponse UpstreamFailure.contractViolation).2.code =
      "api_error" := by
  refine ⟨fun f => ?_, fun st body => rfl, fun msg => rfl, rfl⟩
  cases f <;> rfl

/-- C6: a non-OPTIONS request to `/v1/models` or `/v1/chat/completions`
whose bearer check fails (header absent, not a Bearer credential, or token
not exactly the configured secret — that is `validAuth` being `false`) is
answered 401 `invalid_api_key`, and dispatch never reaches the upstream
call. -/
theorem claim_c6 (key : String) (req : Request)
    (hm : req.method ≠ "OPTIONS")
    (hp : req.path = "/v1/models" ∨ req.path = "/v1/chat/completions")
    (ha : validAuth key req.authHeader = false) :
    serveFetch key req = Dispatch.errorOut 401
      { message := "Unauthorized", type := "api_error", code := "invalid_api_key" } ∧
    ∀ msgs stream mdl, serveFetch key req ≠ Dispatch.upstreamCall msgs stream mdl := by
  have hstart : jsStartsWith req.path "/v1/" = true := by
    rcases hp with h | h <;> rw [h] <;> decide
  constructor
  · simp [serveFetch, hstart, handleApiProxy, hm, ha]
  · intro msgs stream mdl
    simp [serveFetch, hstart, handleApiProxy, hm, ha]

/-- Witness for C6: a GET of `/v1/models` with no `Authorization` header
is answered 401 and the upstream backend is not called. -/
theorem claim_c6_witness :
    ("GET" : String) ≠ "OPTIONS" ∧
    ("/v1/models" = "/v1/models" ∨ "/v1/models" = "/v1/chat/completions") ∧
    validAuth "secret-key" none = false ∧
    (serveFetch "secret-key"
        { path := "/v1/models", method := "GET", authHeader := none,
          body := RequestBody.malformed } =
      Dispatch.errorOut 401
        { message := "Unauthorized", type := "api_error", code := "invalid_api_key" } ∧
      ∀ msgs stream mdl,
        serveFetch "secret-key"
            { path := "/v1/models", method := "GET", authHeader := none,
              body := RequestBody.malformed } ≠
          Dispatch.upstreamCall msgs stream mdl) :=
  ⟨by decide, Or.inl rfl, rfl,
    claim_c6 "secret-key"
      { path := "/v1/models", method := "GET", authHeader := none,
        body := RequestBody.malformed }
      (by decide) (Or.inl rfl) rfl⟩

/-- C7: an authenticated POST of `/v1/chat/completions` whose body is
malformed JSON, or parses with an explicitly empty `messages` array, is
answered 400 with code `invalid_request_error`, and dispatch never reaches
the upstream call. -/
theorem claim_c7 (key : String) (req : Request)
    (hp : req.path = "/v1/chat/completions") (hm : req.method = "POST")
    (ha : validAuth key req.authHeader = true)
    (hb : req.body = RequestBody.malformed ∨
      ∃ stream mdl, req.body = RequestBody.parsed stream mdl (some [])) :
    (∃ msg, serveFetch key req = Dispatch.errorOut 400
        { message := msg, type := "api_error", code := "invalid_request_error" }) ∧
    ∀ msgs stream mdl, serveFetch key req ≠ Dispatch.upstreamCall msgs stream mdl := by
  have hlit : jsStartsWith "/v1/chat/completions" "/v1/" = true := by decide
  have hra : serveFetch key req = handleChatCompletions req := by
    simp [serveFetch, handleApiProxy, hp, hm, ha, hlit]
  rcases hb with hb | ⟨stream, mdl, hb⟩
  · refine ⟨⟨"Invalid JSON body", ?_⟩, ?_⟩
    · rw [hra]
      simp [handleChatCompletions, hb]
    · intro msgs st md
      rw [hra]
      simp [handleChatCompletions, hb]
  · refine ⟨⟨"Missing \x27messages\x27 field", ?_⟩, ?_⟩
    · rw [hra]
      simp [handleChatCompletions, hb]
    · intro msgs st md
      rw [hra]
      simp [handleChatCompletions, hb]

/-- Witness for C7: an authenticated POST with body `\x7b"messages":[]\x7d`
is answered 400 `invalid_request_error` and the upstream backend is not
called. -/
theorem claim_c7_witness :
    ("/v1/chat/completions" : String) = "/v1/chat/completions" ∧
    ("POST" : String) = "POST" ∧
    validAuth "secret-key" (some "Bearer secret-key") = true ∧
    ((∃ msg,
        serveFetch "secret-key"
            { path := "/v1/chat/completions", method := "POST",
              authHeader := some "Bearer secret-key",
              body := RequestBody.parsed false none (some []) } =
          Dispatch.errorOut 400
            { message := msg, type := "api_error", code := "invalid_request_error" }) ∧
      ∀ msgs stream mdl,
        serveFetch "secret-key"
            { path := "/v1/chat/completions", method := "POST",
              authHeader := some "Bearer secret-key",
              body := RequestBody.parsed false none (some []) } ≠
          Dispatch.upstreamCall msgs stream mdl) :=
  ⟨rfl, rfl, by decide,
    claim_c7 "secret-key"
      { path := "/v1/chat/completions", method := "POST",
        authHeader := some "Bearer secret-key",
        body := RequestBody.parsed false none (some []) }
      rfl rfl (by decide)
      (Or.inr ⟨false, none, rfl⟩)⟩

/-- C8: an upstream HTTP 500 is answered with status 502, a `code` that is
exactly `upstream_500`, and a `message` that surfaces the original
upstream body text. -/
theorem claim_c8 (body : String) :
    (upstreamFailureResponse (UpstreamFailure.statusError 500 body)).1 = 502 ∧
    (upstreamFailureResponse (UpstreamFailure.statusError 500 body)).2.code =
      "upstream_500" ∧
    (upstreamFailureResponse (UpstreamFailure.statusError 500 body)).2.message =
      "Upstream error: " ++ body := by
  refine ⟨rfl, ?_, rfl⟩
  show "upstream_" ++ toString (500 : Nat) = "upstream_500"
  rfl

/-- C10: an authenticated POST of `/v1/chat/completions` whose parsed body
has no `messages` field (or has it `null`) is dispatched exactly like one
with an explicitly empty `messages` array — the `|| []` defaulting on
src/index.ts line 128 — and is answered 400 `invalid_request_error`
without any upstream call. -/
theorem claim_c10 (key : String) (req : Request) (stream : Bool) (mdl : Option String)
    (hp : req.path = "/v1/chat/completions") (hm : req.method = "POST")
    (ha : validAuth key req.authHeader = true)
    (hb : req.body = RequestBody.parsed stream mdl none) :
    serveFetch key req = Dispatch.errorOut 400
      { message := "Missing \x27messages\x27 field", type := "api_error",
        code := "invalid_request_error" } ∧
    serveFetch key req =
      serveFetch key { req with body := RequestBody.parsed stream mdl (some []) } ∧
    ∀ msgs st md, serveFetch key req ≠ Dispatch.upstreamCall msgs st md := by
  have hlit : jsStartsWith "/v1/chat/completions" "/v1/" = true := by decide
  have hmain : serveFetch key req = Dispatch.errorOut 400
      { message := "Missing \x27messages\x27 field", type := "api_error",
        code := "invalid_request_error" } := by
    simp [serveFetch, handleApiProxy, handleChatCompletions, hp, hm, ha, hb, hlit]
  refine ⟨hmain, ?_, ?_⟩
  · rw [hmain]
    simp [serveFetch, handleApiProxy, handleChatCompletions, hp, hm, ha, hlit]
  · intro msgs st md
    rw [hmain]
    simp

/-- Witness for C10: an authenticated POST whose body is
`\x7b"stream":false\x7d` (no `messages` field) is answered 400. -/
theorem claim_c10_witness :
    ("/v1/chat/completions" : String) = "/v1/chat/completions" ∧
    ("POST" : String) = "POST" ∧
    validAuth "secret-key" (some "Bearer secret-key") = true ∧
    RequestBody.parsed false none none = RequestBody.parsed false none none ∧
    (serveFetch "secret-key"
        { path := "/v1/chat/completions", method := "POST",
          authHeader := some "Bearer secret-key",
          body := RequestBody.parsed false none none } =
      Dispatch.errorOut 400
        { message := "Missing \x27messages\x27 field", type := "api_error",
          code := "invalid_request_error" } ∧
      serveFetch "secret-key"
          { path := "/v1/chat/completions", method := "POST",
            authHeader := some "Bearer secret-key",
            body := RequestBody.parsed false none none } =
        serveFetch "secret-key"
          { path := "/v1/chat/completions", method := "POST",
            authHeader := some "Bearer secret-key",
            body := RequestBody.parsed false none (some []) } ∧
      ∀ msgs st md,
        serveFetch "secret-key"
            { path := "/v1/chat/completions", method := "POST",
              authHeader := some "Bearer secret-key",
              body := RequestBody.parsed false none none } ≠
          Dispatch.upstreamCall msgs st md) :=
  ⟨rfl, rfl, by decide, rfl,
    claim_c10 "secret-key"
      { path := "/v1/chat/completions", method := "POST",
        authHeader := some "Bearer secret-key",
        body := RequestBody.parsed false none none }
      false none rfl rfl (by decide) rfl⟩
